import Mathlib

/-!
Verification development for the GUARDRAILS policy / risk detection engine.

The Python sources are shallowly embedded here:
* text is `List Char`; Python `re` patterns are embedded as a small regular
  expression datatype with a Python-compatible backtracking matcher
  (leftmost start, greedy quantifiers, first-alternative priority,
  case-insensitive matching as compiled with `re.IGNORECASE`);
* floats are embedded as `ℚ` (all constants in the sources are decimal
  literals, so rational arithmetic is exact where Python floats round);
* stateful tools (`SecurityTools`, `GovernanceTools`, `PerformanceTools`,
  `QualityTools`) become explicit state records with pure transition
  functions; wall-clock timestamps become explicit `now : ℚ` arguments;
* Python's `\w`, `\s`, `\d`, `str.lower` are modelled on the ASCII range
  (plus the precomposed accented letters appearing in the French policy
  strings); every concrete input evaluated in this file is covered exactly.
-/

/- ## Basic string utilities (Python `str` operations on `List Char`). -/

/-- ASCII lower-casing, as applied by Python `str.lower` on ASCII text. -/
def asciiLower (c : Char) : Char :=
  if 'A' ≤ c ∧ c ≤ 'Z' then Char.ofNat (c.toNat + 32) else c

/-- Lower-case a string character-wise (Python `str.lower`; the sources only
lower-case ASCII letters and already-lower-case accented French letters, on
which this agrees with Python). -/
def pyLower (s : List Char) : List Char := s.map asciiLower

/-- Python `str.isspace` / regex `\s` on the ASCII range. -/
def isPySpace (c : Char) : Bool :=
  c == ' ' || c == '\t' || c == '\n' || c == '\r' || c == '\x0b' || c == '\x0c'

/-- Python regex word character `\w` on the ASCII range. -/
def isWordChar (c : Char) : Bool := c.isAlphanum || c == '_'

/-- Python slice `l[-n:]`: the last `n` elements (all of `l` when `n ≥ |l|`). -/
def takeLast {α : Type} (n : ℕ) (l : List α) : List α := l.drop (l.length - n)

/-- Does `small` occur at the head of `big`? -/
def isPrefList : List Char → List Char → Bool
  | [], _ => true
  | _ :: _, [] => false
  | a :: as, b :: bs => a == b && isPrefList as bs

/-- Python substring test `needle in hay`. -/
def containsSeq (hay needle : List Char) : Bool :=
  match hay with
  | [] => needle.isEmpty
  | _ :: rest => isPrefList needle hay || containsSeq rest needle

/-- Python `value.split(sep)` for a single-character separator. -/
def splitChar (sep : Char) (s : List Char) : List (List Char) :=
  match s with
  | [] => [[]]
  | c :: rest =>
    let r := splitChar sep rest
    if c == sep then [] :: r
    else (c :: r.headD []) :: r.tail

/-- Helper for `pyWords`: accumulates the current (reversed) word. -/
def pyWordsAux : List Char → List Char → List (List Char)
  | [], acc => if acc.isEmpty then [] else [acc.reverse]
  | c :: rest, acc =>
    if isPySpace c then
      if acc.isEmpty then pyWordsAux rest [] else acc.reverse :: pyWordsAux rest []
    else pyWordsAux rest (c :: acc)

/-- Python `value.split()`: maximal runs of non-whitespace characters. -/
def pyWords (s : List Char) : List (List Char) := pyWordsAux s []

/- ## A Python-compatible regular expression engine.

Only the constructs used by the `SecurityTools.pii_patterns` regexes are
embedded: character classes, concatenation, alternation, greedy `?`,
greedy `+`/`*` over a character class (every starred subpattern in the
sources is a single class), and the word boundary `\b`.  The matcher
enumerates, in Python's backtracking priority order, all ways the pattern
can match a prefix of the input; the head of the list is the match Python
selects. -/

inductive RE where
  | eps : RE
  | cls (p : Char → Bool) : RE
  | seq (a b : RE) : RE
  | alt (a b : RE) : RE
  | opt (a : RE) : RE
  | starC (p : Char → Bool) : RE
  | wb : RE

/-- Word-boundary test between the previously consumed character and the
head of the remaining input (Python `\b`). -/
def atBoundary (prev : Option Char) (s : List Char) : Bool :=
  let l := match prev with | none => false | some c => isWordChar c
  let r := match s.head? with | none => false | some c => isWordChar c
  l != r

/-- All ways a greedy class star can consume a prefix of `s`, longest first.
Each alternative is the remaining input paired with the last consumed
character (needed for later `\b` tests). -/
def starAlts (p : Char → Bool) : Option Char → List Char → List (List Char × Option Char)
  | prev, [] => [([], prev)]
  | prev, c :: rest =>
    if p c then starAlts p (some c) rest ++ [(c :: rest, prev)]
    else [(c :: rest, prev)]

/-- Backtracking matcher: all complete matches of `r` against a prefix of
`s`, as (remaining input, last consumed character) pairs, in Python's
priority order (the head is the match Python's engine commits to). -/
def matchRE : RE → Option Char → List Char → List (List Char × Option Char)
  | .eps, prev, s => [(s, prev)]
  | .cls p, _, s =>
    match s with
    | [] => []
    | c :: rest => if p c then [(rest, some c)] else []
  | .seq a b, prev, s => (matchRE a prev s).flatMap (fun x => matchRE b x.2 x.1)
  | .alt a b, prev, s => matchRE a prev s ++ matchRE b prev s
  | .opt a, prev, s => matchRE a prev s ++ [(s, prev)]
  | .starC p, prev, s => starAlts p prev s
  | .wb, prev, s => if atBoundary prev s then [(s, prev)] else []

/-- One `re.finditer` scan step: try to match at the current position, emit
the (position, matched text) pair and resume after the match, otherwise
advance one character.  `fuel` bounds the recursion (each step either
consumes input or stops). -/
def scanAux (r : RE) : ℕ → Option Char → List Char → ℕ → List (ℕ × List Char)
  | 0, _, _, _ => []
  | fuel + 1, prev, s, pos =>
    match matchRE r prev s with
    | (s', p') :: _ =>
      let len := s.length - s'.length
      if len = 0 then
        match s with
        | [] => []
        | c :: rest => scanAux r fuel (some c) rest (pos + 1)
      else (pos, s.take len) :: scanAux r fuel p' s' (pos + len)
    | [] =>
      match s with
      | [] => []
      | c :: rest => scanAux r fuel (some c) rest (pos + 1)

/-- Python `re.finditer pattern text`: the ordered list of non-overlapping
matches, each as (start offset, matched text). -/
def findIterRE (r : RE) (s : List Char) : List (ℕ × List Char) :=
  scanAux r (s.length + 1) none s 0

/-- Case-insensitive single character (patterns are compiled with
`re.IGNORECASE`). -/
def ciChar (c : Char) : RE := .cls (fun x => asciiLower x == asciiLower c)

/-- Case-insensitive literal word, used for the street-type suffixes. -/
def ciWord (s : String) : RE := s.data.foldr (fun c r => .seq (ciChar c) r) .eps

/-- Greedy `+` over a character class. -/
def plusC (p : Char → Bool) : RE := .seq (.cls p) (.starC p)

/-- Fixed repetition `p{n}` of a character class. -/
def repC (p : Char → Bool) (n : ℕ) : RE :=
  match n with
  | 0 => .eps
  | n + 1 => .seq (.cls p) (repC p n)

/-- Chain a list of regexes in sequence. -/
def seqAll (rs : List RE) : RE := rs.foldr .seq .eps

/-- Alternation over a list (first alternative has priority, as in Python). -/
def altAll (rs : List RE) : RE :=
  match rs with
  | [] => .eps
  | [r] => r
  | r :: rest => .alt r (altAll rest)

namespace SecurityTools

/- Character classes of the six `pii_patterns` regexes
(`src/AgentSecurite.py`, lines 40-47).  `[A-Z]`/`[a-z]` under
`re.IGNORECASE` match any ASCII letter. -/

def emailLocalCls (c : Char) : Bool :=
  c.isAlphanum || c == '.' || c == '_' || c == '%' || c == '+' || c == '-'

def emailDomainCls (c : Char) : Bool := c.isAlphanum || c == '.' || c == '-'

/-- The quirky `[A-Z|a-z]` class: letters plus a literal bar. -/
def emailTldCls (c : Char) : Bool := c.isAlpha || c == '|'

def phoneSepCls (c : Char) : Bool := c == '-' || c == '.' || isPySpace c

def ccSepCls (c : Char) : Bool := c == '-' || isPySpace c

def addressNameCls (c : Char) : Bool := c.isAlpha || isPySpace c

/-- Regex for the email pattern. -/
def emailRE : RE :=
  seqAll [.wb, plusC emailLocalCls, ciChar '@', plusC emailDomainCls,
    ciChar '.', repC emailTldCls 2, .starC emailTldCls, .wb]

/-- Regex for the phone pattern. -/
def phoneRE : RE :=
  seqAll [.opt (seqAll [.opt (ciChar '+'), ciChar '1', .opt (.cls phoneSepCls)]),
    .opt (ciChar '('), repC Char.isDigit 3, .opt (ciChar ')'),
    .opt (.cls phoneSepCls), repC Char.isDigit 3, .opt (.cls phoneSepCls),
    repC Char.isDigit 4]

/-- Regex for the SSN pattern. -/
def ssnRE : RE :=
  seqAll [.wb, repC Char.isDigit 3, ciChar '-', repC Char.isDigit 2,
    ciChar '-', repC Char.isDigit 4, .wb]

/-- Regex for the credit-card pattern. -/
def creditCardRE : RE :=
  seqAll [.wb, repC Char.isDigit 4, .opt (.cls ccSepCls), repC Char.isDigit 4,
    .opt (.cls ccSepCls), repC Char.isDigit 4, .opt (.cls ccSepCls),
    repC Char.isDigit 4, .wb]

/-- Regex for the street-address pattern. -/
def addressRE : RE :=
  seqAll [.wb, plusC Char.isDigit, plusC isPySpace, plusC addressNameCls,
    altAll [ciWord "Street", ciWord "St", ciWord "Avenue", ciWord "Ave",
      ciWord "Road", ciWord "Rd", ciWord "Boulevard", ciWord "Blvd",
      ciWord "Lane", ciWord "Ln", ciWord "Drive", ciWord "Dr"], .wb]

/-- Regex for the person-name pattern (`[A-Z][a-z]+\s+[A-Z][a-z]+` is any
letter followed by letters under `re.IGNORECASE`). -/
def nameRE : RE :=
  seqAll [.wb, .cls Char.isAlpha, plusC Char.isAlpha, plusC isPySpace,
    .cls Char.isAlpha, plusC Char.isAlpha, .wb]

/-- The `pii_patterns` dictionary, in insertion order. -/
def pii_patterns : List (String × RE) :=
  [("email", emailRE), ("phone", phoneRE), ("ssn", ssnRE),
   ("credit_card", creditCardRE), ("address", addressRE), ("name", nameRE)]

/-- One detected piece of PII (`PIIDetection` dataclass). -/
structure PIIDetection where
  type : String
  value : List Char
  position : ℕ
  confidence : ℚ
  masked_value : List Char
deriving Repr, DecidableEq

/-- `SecurityTools._calculate_confidence` (the match text is unused). -/
def calculate_confidence (pii_type : String) : ℚ :=
  if pii_type = "email" then 95/100
  else if pii_type = "phone" then 90/100
  else if pii_type = "ssn" then 98/100
  else if pii_type = "credit_card" then 85/100
  else if pii_type = "address" then 75/100
  else if pii_type = "name" then 60/100
  else 1/2

/-- `SecurityTools._mask_value`. -/
def mask_value (value : List Char) (pii_type : String) : List Char :=
  if pii_type = "email" then
    let parts := splitChar '@' value
    (parts.headD []).take 2 ++ "***@".data ++ (parts.drop 1).headD []
  else if pii_type = "phone" then "***-***-".data ++ takeLast 4 value
  else if pii_type = "ssn" then "***-**-".data ++ takeLast 4 value
  else if pii_type = "credit_card" then "****-****-****-".data ++ takeLast 4 value
  else if pii_type = "address" then "*** ".data ++ (pyWords value).getLastD []
  else if pii_type = "name" then
    let parts := pyWords value
    (parts.headD []).take 1 ++ "*** ".data ++ ((parts.drop 1).headD []).take 1
      ++ "***".data
  else "***".data

/-- `SecurityTools.detect_pii`: every pattern, in dictionary order, scanned
with `re.finditer`. -/
def detect_pii (text : List Char) : List PIIDetection :=
  pii_patterns.flatMap (fun pat =>
    (findIterRE pat.2 text).map (fun m =>
      { type := pat.1, value := m.2, position := m.1,
        confidence := calculate_confidence pat.1,
        masked_value := mask_value m.2 pat.1 }))

/-- Stable insertion of a detection into a position-descending list (Python's
`sorted(..., reverse=True)` is stable, so an earlier detection precedes a
later one with the same position). -/
def insertPosDesc (d : PIIDetection) : List PIIDetection → List PIIDetection
  | [] => [d]
  | e :: es =>
    if d.position < e.position then e :: insertPosDesc d es
    else d :: e :: es

/-- Sort detections by descending position, stably. -/
def sortPosDesc : List PIIDetection → List PIIDetection
  | [] => []
  | d :: ds => insertPosDesc d (sortPosDesc ds)

/-- `SecurityTools.mask_text`: splice each masked value over the original
offsets, processing detections in descending start-offset order. -/
def mask_text (text : List Char) : List Char × List PIIDetection :=
  let detections := detect_pii text
  ((sortPosDesc detections).foldl
      (fun masked d =>
        masked.take d.position ++ d.masked_value
          ++ masked.drop (d.position + d.value.length))
      text,
   detections)

/-- Per-category penalties of `SecureAgent._calculate_security_score`
(unknown categories fall back to 10). -/
def securityPenalty (t : String) : ℤ :=
  if t = "ssn" then 30
  else if t = "credit_card" then 25
  else if t = "email" then 15
  else if t = "phone" then 10
  else if t = "address" then 20
  else if t = "name" then 5
  else 10

/-- `SecureAgent._calculate_security_score`. -/
def calculate_security_score (detections : List PIIDetection) : ℤ :=
  if detections = [] then 100
  else max 0 (100 - (detections.map (fun d => securityPenalty d.type)).sum)

end SecurityTools

namespace ComplianceTools

/-- One detected compliance violation (`ComplianceViolation` dataclass; the
diagnostic `description` string is not needed by any claim and is omitted). -/
structure ComplianceViolation where
  type : String
  severity : String
  position : ℕ
  confidence : ℚ
deriving Repr, DecidableEq

/-- Per-category penalties of `ComplianceTools._calculate_compliance_score`
(unknown categories fall back to 10). -/
def compliancePenalty (t : String) : ℤ :=
  if t = "jailbreak" then 25
  else if t = "prompt_injection" then 20
  else if t = "financial_advice" then 15
  else if t = "misuse" then 40
  else 10

/-- `ComplianceTools._calculate_compliance_score`. -/
def calculate_compliance_score (violations : List ComplianceViolation) : ℤ :=
  if violations = [] then 100
  else max 0 (100 - (violations.map (fun v => compliancePenalty v.type)).sum)

end ComplianceTools

namespace QualityTools

/-- One detected quality issue (`QualityIssue` dataclass; the diagnostic
`description` string and `metrics` dictionary are not needed by any claim
and are omitted). -/
structure QualityIssue where
  type : String
  severity : String
  confidence : ℚ
deriving Repr, DecidableEq

/-- Per-category penalties of `QualityTools._calculate_quality_score`
(unknown categories fall back to 10). -/
def qualityPenalty (t : String) : ℤ :=
  if t = "hallucination" then 20
  else if t = "bias_cultural" then 15
  else if t = "bias_gender" then 15
  else if t = "bias_social" then 15
  else if t = "bias_age" then 15
  else if t = "input_drift" then 10
  else if t = "output_drift" then 15
  else 10

/-- `QualityTools._calculate_quality_score`. -/
def calculate_quality_score (issues : List QualityIssue) : ℤ :=
  if issues = [] then 100
  else max 0 (100 - (issues.map (fun i => qualityPenalty i.type)).sum)

/-- One history record of `input_history` / `output_history` (the raw text
is stored by the source but never read back; only its derived `length` and
`word_count`, plus the timestamp, are kept). -/
structure HistoryRecord where
  timestamp : ℚ
  length : ℕ
  word_count : ℕ
deriving Repr, DecidableEq

/-- The drift-tracking state of `QualityTools`. -/
structure DriftState where
  input_history : List HistoryRecord
  output_history : List HistoryRecord
deriving Repr

/-- Fresh `QualityTools` drift state. -/
def initDrift : DriftState := { input_history := [], output_history := [] }

/-- `max_history_size` from `QualityTools.__init__`. -/
def max_history_size : ℕ := 1000

/-- Result record of `_calculate_input_drift` / `_calculate_output_drift`
(description string omitted; when the history is shorter than 10 the source
returns a dictionary holding only `drift_detected`, so the other fields are
zero-filled and never read). -/
structure DriftMetrics where
  drift_detected : Bool
  length_change : ℚ
  word_change : ℚ
  confidence : ℚ
deriving Repr

/-- Mean of a list of rationals; `np.mean []` is NaN in the source, and every
comparison against NaN is false, which coincides with Lean's `x / 0 = 0`
convention under the `> 0` guards below. -/
def listMean (l : List ℚ) : ℚ := l.sum / l.length

/-- Shared body of `_calculate_input_drift` and `_calculate_output_drift`
(the two methods are textually identical up to the history they read). -/
def calculate_drift (history : List HistoryRecord) : DriftMetrics :=
  if history.length < 10 then
    { drift_detected := false, length_change := 0, word_change := 0, confidence := 0 }
  else
    let recent := takeLast 10 history
    let older := if history.length ≥ 20 then (takeLast 20 history).take 10
                 else history.take (history.length - 10)
    let recent_avg_length := listMean (recent.map (fun r => (r.length : ℚ)))
    let older_avg_length := listMean (older.map (fun r => (r.length : ℚ)))
    let recent_avg_words := listMean (recent.map (fun r => (r.word_count : ℚ)))
    let older_avg_words := listMean (older.map (fun r => (r.word_count : ℚ)))
    let length_change := if older_avg_length > 0
      then |recent_avg_length - older_avg_length| / older_avg_length else 0
    let word_change := if older_avg_words > 0
      then |recent_avg_words - older_avg_words| / older_avg_words else 0
    { drift_detected := length_change > 3/10 ∨ word_change > 3/10,
      length_change := length_change,
      word_change := word_change,
      confidence := min (9/10) (length_change + word_change) }

/-- The history record appended for a text observed at time `now`. -/
def mkRecord (text : List Char) (now : ℚ) : HistoryRecord :=
  { timestamp := now, length := text.length, word_count := (pyWords text).length }

/-- Append a record and truncate to the most recent `max_history_size`. -/
def pushHistory (history : List HistoryRecord) (r : HistoryRecord) : List HistoryRecord :=
  let h := history ++ [r]
  if h.length > max_history_size then takeLast max_history_size h else h

/-- `QualityTools.detect_input_drift` (issues returned, new state). -/
def detect_input_drift (st : DriftState) (new_input : List Char) (now : ℚ) :
    List QualityIssue × DriftState :=
  let h := pushHistory st.input_history (mkRecord new_input now)
  let issues :=
    if h.length ≥ 10 then
      let m := calculate_drift h
      if m.drift_detected then
        [{ type := "input_drift", severity := "LOW", confidence := m.confidence }]
      else []
    else []
  (issues, { st with input_history := h })

/-- `QualityTools.detect_output_drift` (issues returned, new state). -/
def detect_output_drift (st : DriftState) (new_output : List Char) (now : ℚ) :
    List QualityIssue × DriftState :=
  let h := pushHistory st.output_history (mkRecord new_output now)
  let issues :=
    if h.length ≥ 10 then
      let m := calculate_drift h
      if m.drift_detected then
        [{ type := "output_drift", severity := "MEDIUM", confidence := m.confidence }]
      else []
    else []
  (issues, { st with output_history := h })

end QualityTools

namespace GovernanceTools

/-- `GovernancePolicy` dataclass (timestamps kept as `ℚ`). -/
structure GovernancePolicy where
  id : String
  name : String
  category : String
  description : String
  rules : List String
  boundaries : List String
  enforcement_level : String
  created_at : ℚ
  updated_at : ℚ
deriving Repr

/-- `AgentPurpose` dataclass.  Its `boundaries` field receives a copy of the
store's default boundaries at registration time; only `max_response_length`
of that dictionary is ever read, so the copy is embedded as that number. -/
structure AgentPurpose where
  agent_id : String
  name : String
  primary_purpose : String
  authorized_use_cases : List String
  prohibited_use_cases : List String
  capabilities : List String
  limitations : List String
  boundaries_max_response_length : ℕ
  created_at : ℚ
deriving Repr

/-- One entry of the enforcement log. -/
structure LogEntry where
  timestamp : ℚ
  agent_id : String
  action : String
  authorized : Bool
  reason : String
deriving Repr, DecidableEq

/-- Result dictionary of `check_authorization`. -/
structure AuthzResult where
  authorized : Bool
  reason : String
  recommendation : String
deriving Repr, DecidableEq

/-- The mutable state of `GovernanceTools`.  The `default_behaviors`
dictionary is never read by any embedded operation and is omitted; of the
`default_boundaries` dictionary only `max_response_length` is read, and the
key is always present (setters can only overwrite existing keys). -/
structure GovState where
  policies : List GovernancePolicy
  agent_purposes : List (String × AgentPurpose)
  enforcement_log : List LogEntry
  max_response_length : ℕ
deriving Repr

/-- Python `dict` lookup on an insertion-ordered association list. -/
def lookupA {α : Type} (k : String) : List (String × α) → Option α
  | [] => none
  | p :: ps => if p.1 = k then some p.2 else lookupA k ps

/-- Python `dict` insert: overwrite in place if present, else append. -/
def upsertA {α : Type} (k : String) (v : α) : List (String × α) → List (String × α)
  | [] => [(k, v)]
  | p :: ps => if p.1 = k then (k, v) :: ps else p :: upsertA k v ps

/-- The default security policy from `_initialize_default_policies`. -/
def security_policy (now : ℚ) : GovernancePolicy :=
  { id := "security_001", name := "Politique de Sécurité", category := "security",
    description := "Politique de sécurité pour la protection des données et des utilisateurs",
    rules := ["Ne jamais exposer d'informations sensibles",
      "Toujours valider les entrées utilisateur",
      "Utiliser des connexions sécurisées uniquement",
      "Chiffrer les données sensibles en transit et au repos"],
    boundaries := ["Accès limité aux données autorisées uniquement",
      "Aucun accès aux systèmes de production sans autorisation",
      "Audit obligatoire de toutes les actions sensibles"],
    enforcement_level := "critical", created_at := now, updated_at := now }

/-- The default compliance policy from `_initialize_default_policies`. -/
def compliance_policy (now : ℚ) : GovernancePolicy :=
  { id := "compliance_001", name := "Politique de Conformité", category := "compliance",
    description := "Politique de conformité pour respecter les réglementations",
    rules := ["Respecter le RGPD pour les données personnelles",
      "Respecter les lois locales et internationales",
      "Maintenir la traçabilité des actions",
      "Signaler les violations de conformité"],
    boundaries := ["Aucune utilisation de données sans consentement",
      "Respect des délais de rétention des données",
      "Notification obligatoire des violations"],
    enforcement_level := "high", created_at := now, updated_at := now }

/-- The default quality policy from `_initialize_default_policies`. -/
def quality_policy (now : ℚ) : GovernancePolicy :=
  { id := "quality_001", name := "Politique de Qualité", category := "quality",
    description := "Politique de qualité pour maintenir l'excellence des services",
    rules := ["Fournir des réponses précises et vérifiées",
      "Admettre les limitations et incertitudes",
      "Citer les sources quand approprié",
      "Maintenir un niveau de service constant"],
    boundaries := ["Ne jamais inventer d'informations",
      "Limiter les réponses aux domaines d'expertise",
      "Escalader les questions complexes"],
    enforcement_level := "medium", created_at := now, updated_at := now }

/-- `GovernanceTools.__init__` at time `now` (default boundaries give
`max_response_length = 5000`). -/
def govInit (now : ℚ) : GovState :=
  { policies := [security_policy now, compliance_policy now, quality_policy now],
    agent_purposes := [], enforcement_log := [], max_response_length := 5000 }

/-- `GovernanceTools.define_agent_purpose`. -/
def define_agent_purpose (st : GovState) (agent_id name primary_purpose : String)
    (authorized_use_cases prohibited_use_cases capabilities limitations : List String)
    (now : ℚ) : GovState :=
  let purpose : AgentPurpose :=
    { agent_id := agent_id, name := name, primary_purpose := primary_purpose,
      authorized_use_cases := authorized_use_cases,
      prohibited_use_cases := prohibited_use_cases,
      capabilities := capabilities, limitations := limitations,
      boundaries_max_response_length := st.max_response_length, created_at := now }
  { st with agent_purposes := upsertA agent_id purpose st.agent_purposes }

/-- Python `in` on lower-cased strings: `sub.lower() in s.lower()`. -/
def containsLower (s sub : String) : Bool :=
  containsSeq (pyLower s.data) (pyLower sub.data)

/-- `GovernanceTools._is_valid_input`. -/
def is_valid_input (input_text : String) : Bool :=
  if input_text.data.all isPySpace then false
  else if input_text.length > 10000 then false
  else true

/-- `GovernanceTools._check_rule_violation` (the `context` argument is
unused by the source). -/
def check_rule_violation (rule action : String) : Bool :=
  if containsLower rule "ne jamais" && containsLower rule "exposer" then
    containsLower action "password" || containsLower action "secret"
  else if containsLower rule "toujours valider" then
    !(is_valid_input action)
  else false

/-- `GovernanceTools._check_boundary_violation`. -/
def check_boundary_violation (boundary action : String) : Bool :=
  if containsLower boundary "accès limité" then
    containsLower action "admin" || containsLower action "root"
  else if containsLower boundary "aucun accès" then
    containsLower action "production" || containsLower action "système"
  else false

/-- `GovernanceTools._check_policy_violation`. -/
def check_policy_violation (policy : GovernancePolicy) (action : String) : Bool :=
  policy.rules.any (fun r => check_rule_violation r action)
    || policy.boundaries.any (fun b => check_boundary_violation b action)

/-- `GovernanceTools._log_enforcement`: append, then keep the most recent
1000 entries. -/
def log_enforcement (log : List LogEntry) (e : LogEntry) : List LogEntry :=
  let l := log ++ [e]
  if l.length > 1000 then takeLast 1000 l else l

/-- `GovernanceTools.check_authorization` (result, next state).  The
unregistered-agent branch returns before any logging. -/
def check_authorization (st : GovState) (agent_id action : String) (now : ℚ) :
    AuthzResult × GovState :=
  match lookupA agent_id st.agent_purposes with
  | none =>
    ({ authorized := false, reason := "Agent non enregistré",
       recommendation := "Enregistrer l'agent avec define_agent_purpose" }, st)
  | some purpose =>
    match purpose.prohibited_use_cases.find? (fun p => containsLower action p) with
    | some prohibited =>
      let e : LogEntry := ⟨now, agent_id, action, false, "Cas d'usage interdit: " ++ prohibited⟩
      ({ authorized := false, reason := "Cas d'usage interdit: " ++ prohibited,
         recommendation := "Utiliser un cas d'usage autorisé" },
       { st with enforcement_log := log_enforcement st.enforcement_log e })
    | none =>
      if action.length > st.max_response_length then
        let e : LogEntry := ⟨now, agent_id, action, false, "Dépassement de la limite de longueur"⟩
        ({ authorized := false,
           reason := "Dépassement de la limite de longueur de réponse",
           recommendation := "Réduire la longueur de la requête" },
         { st with enforcement_log := log_enforcement st.enforcement_log e })
      else
        match st.policies.find? (fun pol => check_policy_violation pol action) with
        | some pol =>
          let e : LogEntry := ⟨now, agent_id, action, false, "Violation de politique: " ++ pol.name⟩
          ({ authorized := false, reason := "Violation de la politique: " ++ pol.name,
             recommendation := "Respecter les règles de la politique" },
           { st with enforcement_log := log_enforcement st.enforcement_log e })
        | none =>
          let e : LogEntry := ⟨now, agent_id, action, true, "Action autorisée"⟩
          ({ authorized := true, reason := "Action conforme aux politiques",
             recommendation := "Continuer l'exécution" },
           { st with enforcement_log := log_enforcement st.enforcement_log e })

end GovernanceTools

namespace PerformanceTools

/- Cost rates from `PerformanceTools.__init__` (`cost_rates`). -/

def rate_api_call : ℚ := 1/1000
def rate_token : ℚ := 1/10000
def rate_storage_mb : ℚ := 1/100
def rate_compute_second : ℚ := 1/20

/-- The `cost_tracking` dictionary. -/
structure CostState where
  api_calls : ℚ
  tokens_used : ℚ
  storage_used : ℚ
  compute_time : ℚ
deriving Repr, DecidableEq

/-- Fresh `cost_tracking` state (all accumulators zero). -/
def costInit : CostState :=
  { api_calls := 0, tokens_used := 0, storage_used := 0, compute_time := 0 }

/-- `PerformanceTools.track_api_call`: one more call, the tokens, and an
extra 0.1 s of estimated API compute time. -/
def track_api_call (c : CostState) (tokens_used : ℚ) : CostState :=
  { c with api_calls := c.api_calls + 1,
           tokens_used := c.tokens_used + tokens_used,
           compute_time := c.compute_time + 1/10 }

/-- `PerformanceTools.track_storage`. -/
def track_storage (c : CostState) (size_mb : ℚ) : CostState :=
  { c with storage_used := c.storage_used + size_mb }

/-- `PerformanceTools.track_compute_time`. -/
def track_compute_time (c : CostState) (duration_seconds : ℚ) : CostState :=
  { c with compute_time := c.compute_time + duration_seconds }

/-- `PerformanceTools.get_total_cost`. -/
def get_total_cost (c : CostState) : ℚ :=
  c.api_calls * rate_api_call + c.tokens_used * rate_token
    + c.storage_used * rate_storage_mb + c.compute_time * rate_compute_second

/-- A cost-accumulating call, for quantifying over call sequences. -/
inductive CostOp where
  | api (tokens : ℚ) : CostOp
  | storage (mb : ℚ) : CostOp
  | compute (seconds : ℚ) : CostOp
deriving Repr

/-- Run one cost-accumulating call. -/
def stepCost (c : CostState) : CostOp → CostState
  | .api t => track_api_call c t
  | .storage m => track_storage c m
  | .compute s => track_compute_time c s

/-- Run a sequence of cost-accumulating calls. -/
def runCost (c : CostState) (ops : List CostOp) : CostState := ops.foldl stepCost c

/-- Number of `track_api_call` invocations in a call sequence. -/
def countApi : List CostOp → ℚ
  | [] => 0
  | .api _ :: ops => countApi ops + 1
  | .storage _ :: ops => countApi ops
  | .compute _ :: ops => countApi ops

/-- Total tokens passed to `track_api_call` in a call sequence. -/
def sumTokens : List CostOp → ℚ
  | [] => 0
  | .api t :: ops => sumTokens ops + t
  | .storage _ :: ops => sumTokens ops
  | .compute _ :: ops => sumTokens ops

/-- Total megabytes passed to `track_storage` in a call sequence. -/
def sumStorage : List CostOp → ℚ
  | [] => 0
  | .api _ :: ops => sumStorage ops
  | .storage m :: ops => sumStorage ops + m
  | .compute _ :: ops => sumStorage ops

/-- Total seconds passed to `track_compute_time` in a call sequence. -/
def sumCompute : List CostOp → ℚ
  | [] => 0
  | .api _ :: ops => sumCompute ops
  | .storage _ :: ops => sumCompute ops
  | .compute t :: ops => sumCompute ops + t

/-- One step of a tracked task. -/
structure TaskStep where
  step_number : ℕ
  description : String
  type : String
  timestamp : ℚ
deriving Repr

/-- One entry of the `task_steps` dictionary (the fields written by
`end_task` — end time, duration, success, totals — are only copied into
the returned metrics and are not read back by any embedded operation, so
they are not stored). -/
structure TaskEntry where
  description : String
  start_time : ℚ
  steps : List TaskStep
  interventions : ℕ
  cost : ℚ
deriving Repr

/-- One recorded human intervention. -/
structure Intervention where
  id : ℕ
  reason : String
  task_id : Option String
  timestamp : ℚ
deriving Repr

/-- The metrics dictionary returned by `end_task`. -/
structure TaskMetrics where
  task_id : String
  total_steps : ℕ
  duration : ℚ
  success : Bool
  cost : ℚ
  interventions : ℕ
  steps_per_minute : ℚ
deriving Repr, DecidableEq

/-- The task-tracking state of `PerformanceTools`. -/
structure PerfState where
  human_interventions : List Intervention
  intervention_count : ℕ
  task_steps : List (String × TaskEntry)
  current_task_id : Option String
  step_count : ℕ
  cost_tracking : CostState
deriving Repr

/-- Fresh `PerformanceTools` state. -/
def perfInit : PerfState :=
  { human_interventions := [], intervention_count := 0, task_steps := [],
    current_task_id := none, step_count := 0, cost_tracking := costInit }

/-- `GovernanceTools`-style dict update reused for `task_steps`. -/
def updateA {α : Type} (k : String) (f : α → α) : List (String × α) → List (String × α)
  | [] => []
  | p :: ps => if p.1 = k then (p.1, f p.2) :: ps else p :: updateA k f ps

/-- `PerformanceTools.track_human_intervention`: appends a record and bumps
the tracker-global counter; no per-task field is touched. -/
def track_human_intervention (st : PerfState) (reason : String) (now : ℚ) : PerfState :=
  let iv : Intervention :=
    { id := st.human_interventions.length + 1, reason := reason,
      task_id := st.current_task_id, timestamp := now }
  { st with human_interventions := st.human_interventions ++ [iv],
            intervention_count := st.intervention_count + 1 }

/-- `PerformanceTools.start_task`: resets the step counter and creates a
fresh task entry with zero interventions and cost. -/
def start_task (st : PerfState) (task_id description : String) (now : ℚ) : PerfState :=
  let entry : TaskEntry :=
    { description := description, start_time := now, steps := [],
      interventions := 0, cost := 0 }
  { st with current_task_id := some task_id, step_count := 0,
            task_steps := GovernanceTools.upsertA task_id entry st.task_steps }

/-- `PerformanceTools.add_step`: no-op without a current task, otherwise
appends a step to the current task and bumps the step counter. -/
def add_step (st : PerfState) (step_description step_type : String) (now : ℚ) : PerfState :=
  match st.current_task_id with
  | none => st
  | some tid =>
    let step : TaskStep :=
      { step_number := st.step_count + 1, description := step_description,
        type := step_type, timestamp := now }
    { st with task_steps := updateA tid (fun t => { t with steps := t.steps ++ [step] }) st.task_steps,
              step_count := st.step_count + 1 }

/-- `PerformanceTools.end_task`: returns `none` (the empty dictionary) when
no task is current, otherwise the metrics of the current task; the metrics
`interventions` field is copied from the task entry.  A current task id
always has an entry in `task_steps` (only `start_task` sets it); the
impossible missing-entry case also returns `none`. -/
def end_task (st : PerfState) (success : Bool) (now : ℚ) :
    Option TaskMetrics × PerfState :=
  match st.current_task_id with
  | none => (none, st)
  | some tid =>
    match GovernanceTools.lookupA tid st.task_steps with
    | none => (none, st)
    | some task =>
      let duration := now - task.start_time
      let m : TaskMetrics :=
        { task_id := tid, total_steps := task.steps.length, duration := duration,
          success := success, cost := get_total_cost st.cost_tracking,
          interventions := task.interventions,
          steps_per_minute := if duration > 0
            then (task.steps.length : ℚ) / (duration / 60) else 0 }
      (some m, { st with current_task_id := none, step_count := 0 })

/-- A task-lifecycle call, for quantifying over call sequences
(`start_task`, `add_step`, `track_human_intervention`). -/
inductive TrackOp where
  | start (task_id description : String) (now : ℚ) : TrackOp
  | step (description type : String) (now : ℚ) : TrackOp
  | intervention (reason : String) (now : ℚ) : TrackOp
deriving Repr

/-- Run one task-lifecycle call. -/
def stepTrack (st : PerfState) : TrackOp → PerfState
  | .start tid d now => start_task st tid d now
  | .step d ty now => add_step st d ty now
  | .intervention r now => track_human_intervention st r now

/-- Run a sequence of task-lifecycle calls. -/
def runTrack (st : PerfState) (ops : List TrackOp) : PerfState := ops.foldl stepTrack st

/-- One record of the loop-detection call history.  The source keys
repetition counting by the string `f"{function}_{hash(str(args))}"`; the
argument snapshot is embedded as the string `str(args)` and the key as the
(function, snapshot) pair, which agrees with the source up to `hash`
collisions. -/
structure CallRecord where
  function : String
  args : String
  timestamp : ℚ
deriving Repr, DecidableEq

/- Constants of the `loop_detection` dictionary; `max_calls`,
`timeout_threshold` and `pattern_detection` are fixed at construction and
never mutated anywhere in the sources. -/

def max_calls : ℕ := 100
def timeout_threshold : ℚ := 30

/-- Number of calls in `recent` sharing the repetition key of `c`. -/
def countKey (recent : List CallRecord) (c : CallRecord) : ℕ :=
  (recent.filter (fun c' => c'.function = c.function ∧ c'.args = c.args)).length

/-- True when some repetition key occurs more than 3 times in `recent`
(equivalently: the maximum of the source's `function_counts` exceeds 3). -/
def hasRepeatedKey (recent : List CallRecord) : Bool :=
  recent.any (fun c => 3 < countKey recent c)

/-- `PerformanceTools.detect_infinite_loop` (flag returned, new history).
The pattern check only runs once the last-10 window holds at least 5 calls;
whatever it returns, the timeout check compares the current time against
the oldest record of the (truncated) history. -/
def detect_infinite_loop (history : List CallRecord) (function_name args : String)
    (now : ℚ) : Bool × List CallRecord :=
  let h := history ++ [⟨function_name, args, now⟩]
  let h := if h.length > max_calls then takeLast max_calls h else h
  let recent := takeLast 10 h
  let flag : Bool :=
    if recent.length ≥ 5 ∧ hasRepeatedKey recent then true
    else if h.length > 1 ∧ now - (h.headD ⟨"", "", 0⟩).timestamp > timeout_threshold then true
    else false
  (flag, h)

end PerformanceTools

/- ## Shared helper lemmas. -/

theorem compliancePenalty_nonneg (t : String) : 0 ≤ ComplianceTools.compliancePenalty t := by
  unfold ComplianceTools.compliancePenalty
  split_ifs <;> norm_num

theorem qualityPenalty_nonneg (t : String) : 0 ≤ QualityTools.qualityPenalty t := by
  unfold QualityTools.qualityPenalty
  split_ifs <;> norm_num

theorem securityPenalty_nonneg (t : String) : 0 ≤ SecurityTools.securityPenalty t := by
  unfold SecurityTools.securityPenalty
  split_ifs <;> norm_num

theorem compliance_score_bounds (cs : List ComplianceTools.ComplianceViolation) :
    0 ≤ ComplianceTools.calculate_compliance_score cs
  ∧ ComplianceTools.calculate_compliance_score cs ≤ 100 := by
  unfold ComplianceTools.calculate_compliance_score
  split
  · exact ⟨by norm_num, le_refl _⟩
  · have hs : 0 ≤ (cs.map (fun v => ComplianceTools.compliancePenalty v.type)).sum := by
      apply List.sum_nonneg
      intro x hx
      obtain ⟨a, _, rfl⟩ := List.mem_map.mp hx
      exact compliancePenalty_nonneg a.type
    exact ⟨le_max_left _ _, max_le (by norm_num) (by omega)⟩

theorem quality_score_bounds (qs : List QualityTools.QualityIssue) :
    0 ≤ QualityTools.calculate_quality_score qs
  ∧ QualityTools.calculate_quality_score qs ≤ 100 := by
  unfold QualityTools.calculate_quality_score
  split
  · exact ⟨by norm_num, le_refl _⟩
  · have hs : 0 ≤ (qs.map (fun i => QualityTools.qualityPenalty i.type)).sum := by
      apply List.sum_nonneg
      intro x hx
      obtain ⟨a, _, rfl⟩ := List.mem_map.mp hx
      exact qualityPenalty_nonneg a.type
    exact ⟨le_max_left _ _, max_le (by norm_num) (by omega)⟩

theorem security_score_bounds (ss : List SecurityTools.PIIDetection) :
    0 ≤ SecurityTools.calculate_security_score ss
  ∧ SecurityTools.calculate_security_score ss ≤ 100 := by
  unfold SecurityTools.calculate_security_score
  split
  · exact ⟨by norm_num, le_refl _⟩
  · have hs : 0 ≤ (ss.map (fun d => SecurityTools.securityPenalty d.type)).sum := by
      apply List.sum_nonneg
      intro x hx
      obtain ⟨a, _, rfl⟩ := List.mem_map.mp hx
      exact securityPenalty_nonneg a.type
    exact ⟨le_max_left _ _, max_le (by norm_num) (by omega)⟩

theorem compliance_score_perm {l₁ l₂ : List ComplianceTools.ComplianceViolation}
    (h : l₁.Perm l₂) :
    ComplianceTools.calculate_compliance_score l₁
      = ComplianceTools.calculate_compliance_score l₂ := by
  unfold ComplianceTools.calculate_compliance_score
  have hs := (h.map (fun v => ComplianceTools.compliancePenalty v.type)).sum_eq
  rcases l₁ with _ | ⟨a, l₁⟩
  · obtain rfl := h.nil_eq
    rfl
  · rcases l₂ with _ | ⟨b, l₂⟩
    · exact absurd h.eq_nil (by simp)
    · rw [if_neg (by simp), if_neg (by simp), hs]

theorem quality_score_perm {l₁ l₂ : List QualityTools.QualityIssue}
    (h : l₁.Perm l₂) :
    QualityTools.calculate_quality_score l₁
      = QualityTools.calculate_quality_score l₂ := by
  unfold QualityTools.calculate_quality_score
  have hs := (h.map (fun i => QualityTools.qualityPenalty i.type)).sum_eq
  rcases l₁ with _ | ⟨a, l₁⟩
  · obtain rfl := h.nil_eq
    rfl
  · rcases l₂ with _ | ⟨b, l₂⟩
    · exact absurd h.eq_nil (by simp)
    · rw [if_neg (by simp), if_neg (by simp), hs]

theorem security_score_perm {l₁ l₂ : List SecurityTools.PIIDetection}
    (h : l₁.Perm l₂) :
    SecurityTools.calculate_security_score l₁
      = SecurityTools.calculate_security_score l₂ := by
  unfold SecurityTools.calculate_security_score
  have hs := (h.map (fun d => SecurityTools.securityPenalty d.type)).sum_eq
  rcases l₁ with _ | ⟨a, l₁⟩
  · obtain rfl := h.nil_eq
    rfl
  · rcases l₂ with _ | ⟨b, l₂⟩
    · exact absurd h.eq_nil (by simp)
    · rw [if_neg (by simp), if_neg (by simp), hs]

/- ## C1 -/

/-- C1: each of the three score functions returns an integer in [0,100];
the empty findings list yields 100 and otherwise the score is
`max 0 (100 - Σ penalty(category))` with the fixed penalty tables
(`compliancePenalty`, `qualityPenalty`, `securityPenalty`, each falling
back to 10 on unknown categories); the score is invariant under
permutation of the findings list. -/
theorem score_contract
    (cs cs' : List ComplianceTools.ComplianceViolation)
    (qs qs' : List QualityTools.QualityIssue)
    (ss ss' : List SecurityTools.PIIDetection) :
    (0 ≤ ComplianceTools.calculate_compliance_score cs
      ∧ ComplianceTools.calculate_compliance_score cs ≤ 100)
  ∧ (0 ≤ QualityTools.calculate_quality_score qs
      ∧ QualityTools.calculate_quality_score qs ≤ 100)
  ∧ (0 ≤ SecurityTools.calculate_security_score ss
      ∧ SecurityTools.calculate_security_score ss ≤ 100)
  ∧ ComplianceTools.calculate_compliance_score cs
      = (if cs = [] then 100 else
          max 0 (100 - (cs.map (fun v => ComplianceTools.compliancePenalty v.type)).sum))
  ∧ QualityTools.calculate_quality_score qs
      = (if qs = [] then 100 else
          max 0 (100 - (qs.map (fun i => QualityTools.qualityPenalty i.type)).sum))
  ∧ SecurityTools.calculate_security_score ss
      = (if ss = [] then 100 else
          max 0 (100 - (ss.map (fun d => SecurityTools.securityPenalty d.type)).sum))
  ∧ (cs.Perm cs' → ComplianceTools.calculate_compliance_score cs
      = ComplianceTools.calculate_compliance_score cs')
  ∧ (qs.Perm qs' → QualityTools.calculate_quality_score qs
      = QualityTools.calculate_quality_score qs')
  ∧ (ss.Perm ss' → SecurityTools.calculate_security_score ss
      = SecurityTools.calculate_security_score ss') := by
  exact ⟨compliance_score_bounds cs, quality_score_bounds qs, security_score_bounds ss,
    rfl, rfl, rfl,
    fun h => compliance_score_perm h, fun h => quality_score_perm h,
    fun h => security_score_perm h⟩

/-- Witness for C1 at concrete findings lists, discharging the permutation
hypotheses with explicit two-element swaps. -/
theorem score_contract_witness :
    (0 ≤ ComplianceTools.calculate_compliance_score
        [⟨"jailbreak", "HIGH", 0, 95/100⟩, ⟨"misuse", "CRITICAL", 3, 98/100⟩]
      ∧ ComplianceTools.calculate_compliance_score
        [⟨"jailbreak", "HIGH", 0, 95/100⟩, ⟨"misuse", "CRITICAL", 3, 98/100⟩] ≤ 100)
  ∧ ComplianceTools.calculate_compliance_score
        [⟨"jailbreak", "HIGH", 0, 95/100⟩, ⟨"misuse", "CRITICAL", 3, 98/100⟩]
      = ComplianceTools.calculate_compliance_score
        [⟨"misuse", "CRITICAL", 3, 98/100⟩, ⟨"jailbreak", "HIGH", 0, 95/100⟩]
  ∧ QualityTools.calculate_quality_score
        [⟨"hallucination", "HIGH", 85/100⟩, ⟨"bias_gender", "MEDIUM", 80/100⟩]
      = QualityTools.calculate_quality_score
        [⟨"bias_gender", "MEDIUM", 80/100⟩, ⟨"hallucination", "HIGH", 85/100⟩]
  ∧ SecurityTools.calculate_security_score
        [⟨"ssn", "123-45-6789".data, 0, 98/100, "***-**-6789".data⟩,
         ⟨"email", "a@b.co".data, 20, 95/100, "a***@b.co".data⟩]
      = SecurityTools.calculate_security_score
        [⟨"email", "a@b.co".data, 20, 95/100, "a***@b.co".data⟩,
         ⟨"ssn", "123-45-6789".data, 0, 98/100, "***-**-6789".data⟩] := by
  have h := score_contract
    [⟨"jailbreak", "HIGH", 0, 95/100⟩, ⟨"misuse", "CRITICAL", 3, 98/100⟩]
    [⟨"misuse", "CRITICAL", 3, 98/100⟩, ⟨"jailbreak", "HIGH", 0, 95/100⟩]
    [⟨"hallucination", "HIGH", 85/100⟩, ⟨"bias_gender", "MEDIUM", 80/100⟩]
    [⟨"bias_gender", "MEDIUM", 80/100⟩, ⟨"hallucination", "HIGH", 85/100⟩]
    [⟨"ssn", "123-45-6789".data, 0, 98/100, "***-**-6789".data⟩,
     ⟨"email", "a@b.co".data, 20, 95/100, "a***@b.co".data⟩]
    [⟨"email", "a@b.co".data, 20, 95/100, "a***@b.co".data⟩,
     ⟨"ssn", "123-45-6789".data, 0, 98/100, "***-**-6789".data⟩]
  exact ⟨h.1,
    h.2.2.2.2.2.2.1 (List.Perm.swap _ _ _),
    h.2.2.2.2.2.2.2.1 (List.Perm.swap _ _ _),
    h.2.2.2.2.2.2.2.2 (List.Perm.swap _ _ _)⟩

/- ## C4 -/

/-- C4 counterexample: one `track_api_call(100)` on a fresh tracker yields a
total cost of 0.016, not the claimed 0.011, because `track_api_call` also
adds 0.1 estimated compute seconds. -/
theorem single_api_call_cost :
    PerformanceTools.get_total_cost
      (PerformanceTools.track_api_call PerformanceTools.costInit 100) = 16/1000
  ∧ (16/1000 : ℚ) ≠ 11/1000 := by
  constructor
  · norm_num [PerformanceTools.get_total_cost, PerformanceTools.track_api_call,
      PerformanceTools.costInit, PerformanceTools.rate_api_call,
      PerformanceTools.rate_token, PerformanceTools.rate_storage_mb,
      PerformanceTools.rate_compute_second]
  · norm_num

theorem runCost_fields (ops : List PerformanceTools.CostOp)
    (c : PerformanceTools.CostState) :
    (PerformanceTools.runCost c ops).api_calls
        = c.api_calls + PerformanceTools.countApi ops
  ∧ (PerformanceTools.runCost c ops).tokens_used
        = c.tokens_used + PerformanceTools.sumTokens ops
  ∧ (PerformanceTools.runCost c ops).storage_used
        = c.storage_used + PerformanceTools.sumStorage ops
  ∧ (PerformanceTools.runCost c ops).compute_time
        = c.compute_time + PerformanceTools.sumCompute ops
          + PerformanceTools.countApi ops * (1/10) := by
  induction ops generalizing c with
  | nil =>
    simp [PerformanceTools.runCost, PerformanceTools.countApi,
      PerformanceTools.sumTokens, PerformanceTools.sumStorage,
      PerformanceTools.sumCompute]
  | cons o ops ih =>
    obtain ⟨h1, h2, h3, h4⟩ := ih (PerformanceTools.stepCost c o)
    have hrc : PerformanceTools.runCost c (o :: ops)
        = PerformanceTools.runCost (PerformanceTools.stepCost c o) ops := rfl
    rw [hrc, h1, h2, h3, h4]
    cases o <;>
      refine ⟨?_, ?_, ?_, ?_⟩ <;>
      simp only [PerformanceTools.stepCost, PerformanceTools.track_api_call,
        PerformanceTools.track_storage, PerformanceTools.track_compute_time,
        PerformanceTools.countApi, PerformanceTools.sumTokens,
        PerformanceTools.sumStorage, PerformanceTools.sumCompute] <;>
      try ring

/-- C4 amended: after one `track_api_call(100)` on a fresh tracker the total
cost is 0.016 (the call also books 0.1 estimated compute seconds at rate
0.05/s); in general, over any sequence of cost-tracking calls, the total is
`calls·0.001 + tokens·0.0001 + storage_mb·0.01 +
(tracked_compute_seconds + 0.1·calls)·0.05`. -/
theorem total_cost_formula (ops : List PerformanceTools.CostOp) :
    PerformanceTools.get_total_cost
      (PerformanceTools.runCost PerformanceTools.costInit [.api 100]) = 16/1000
  ∧ PerformanceTools.get_total_cost (PerformanceTools.runCost PerformanceTools.costInit ops)
      = PerformanceTools.countApi ops * (1/1000)
        + PerformanceTools.sumTokens ops * (1/10000)
        + PerformanceTools.sumStorage ops * (1/100)
        + (PerformanceTools.sumCompute ops + PerformanceTools.countApi ops * (1/10))
            * (1/20) := by
  constructor
  · norm_num [PerformanceTools.get_total_cost, PerformanceTools.runCost,
      PerformanceTools.stepCost, PerformanceTools.track_api_call,
      PerformanceTools.costInit, PerformanceTools.rate_api_call,
      PerformanceTools.rate_token, PerformanceTools.rate_storage_mb,
      PerformanceTools.rate_compute_second]
  · obtain ⟨h1, h2, h3, h4⟩ := runCost_fields ops PerformanceTools.costInit
    unfold PerformanceTools.get_total_cost
    rw [h1, h2, h3, h4]
    simp only [PerformanceTools.costInit, PerformanceTools.rate_api_call,
      PerformanceTools.rate_token, PerformanceTools.rate_storage_mb,
      PerformanceTools.rate_compute_second]
    ring

/- ## C5 -/

theorem foldl_log_enforcement (es : List GovernanceTools.LogEntry) :
    ∀ l : List GovernanceTools.LogEntry, l.length ≤ 1000 →
    es.foldl GovernanceTools.log_enforcement l
        = (l ++ es).drop ((l ++ es).length - 1000)
  ∧ (es.foldl GovernanceTools.log_enforcement l).length ≤ 1000 := by
  induction es with
  | nil =>
    intro l hl
    have h0 : l.length - 1000 = 0 := by omega
    simpa [h0] using hl
  | cons e es ih =>
    intro l hl
    simp only [List.foldl_cons]
    by_cases hlen : l.length + 1 ≤ 1000
    · have hc : ¬ (l ++ [e]).length > 1000 := by
        simp only [List.length_append, List.length_singleton]
        omega
      have hstep : GovernanceTools.log_enforcement l e = l ++ [e] := by
        simp only [GovernanceTools.log_enforcement]
        rw [if_neg hc]
      rw [hstep]
      have h := ih (l ++ [e])
        (by simp only [List.length_append, List.length_singleton]; omega)
      have heq : (l ++ [e]) ++ es = l ++ e :: es := by
        rw [List.append_assoc, List.singleton_append]
      rw [heq] at h
      exact h
    · have hl1000 : l.length = 1000 := by omega
      have hc : (l ++ [e]).length > 1000 := by
        simp only [List.length_append, List.length_singleton]
        omega
      have hd1 : (l ++ [e]).length - 1000 = 1 := by
        simp only [List.length_append, List.length_singleton]
        omega
      have hstep : GovernanceTools.log_enforcement l e = (l ++ [e]).drop 1 := by
        simp only [GovernanceTools.log_enforcement]
        rw [if_pos hc]
        unfold takeLast
        rw [hd1]
      rw [hstep]
      have hlen2 : ((l ++ [e]).drop 1).length ≤ 1000 := by
        simp only [List.length_drop, List.length_append, List.length_singleton]
        omega
      have h := ih ((l ++ [e]).drop 1) hlen2
      have happ : (l ++ [e]).drop 1 ++ es = (l ++ e :: es).drop 1 := by
        rcases l with _ | ⟨a, l⟩
        · simp at hl1000
        · simp
      rw [happ, List.drop_drop] at h
      have hX : 1 + (((l ++ e :: es).drop 1).length - 1000)
          = (l ++ e :: es).length - 1000 := by
        simp only [List.length_drop, List.length_append, List.length_cons]
        omega
      rw [hX] at h
      exact h

/-- C5: after any sequence of logged calls the enforcement log holds at most
1000 entries, and when more than 1000 entries have been pushed the log is
exactly the most recent 1000 in append order (oldest-first eviction). -/
theorem enforcement_log_bounded_eviction (es : List GovernanceTools.LogEntry) :
    (es.foldl GovernanceTools.log_enforcement []).length ≤ 1000
  ∧ (1000 < es.length →
      es.foldl GovernanceTools.log_enforcement []
        = es.drop (es.length - 1000)) := by
  have h := foldl_log_enforcement es [] (by simp)
  refine ⟨h.2, fun _ => ?_⟩
  simpa using h.1

/-- Witness for C5: pushing 1001 entries leaves exactly the most recent
1000 entries. -/
theorem enforcement_log_bounded_eviction_witness :
    ((List.replicate 1001 (⟨0, "a", "x", true, "ok"⟩ : GovernanceTools.LogEntry)).foldl
        GovernanceTools.log_enforcement []).length ≤ 1000
  ∧ (List.replicate 1001 (⟨0, "a", "x", true, "ok"⟩ : GovernanceTools.LogEntry)).foldl
        GovernanceTools.log_enforcement []
      = (List.replicate 1001 (⟨0, "a", "x", true, "ok"⟩ : GovernanceTools.LogEntry)).drop
          ((List.replicate 1001 (⟨0, "a", "x", true, "ok"⟩ : GovernanceTools.LogEntry)).length - 1000) := by
  have h := enforcement_log_bounded_eviction
    (List.replicate 1001 (⟨0, "a", "x", true, "ok"⟩ : GovernanceTools.LogEntry))
  exact ⟨h.1, h.2 (by rw [List.length_replicate]; norm_num)⟩

/- ## C3 and C6: governance authorization. -/

theorem lookupA_upsertA {α : Type} (k : String) (v : α) (l : List (String × α)) :
    GovernanceTools.lookupA k (GovernanceTools.upsertA k v l) = some v := by
  induction l with
  | nil => simp [GovernanceTools.lookupA, GovernanceTools.upsertA]
  | cons p ps ih =>
    by_cases h : p.1 = k
    · simp [GovernanceTools.lookupA, GovernanceTools.upsertA, h]
    · simp [GovernanceTools.lookupA, GovernanceTools.upsertA, h, ih]

/-- C3 counterexample: a `check_authorization` call for an unregistered
agent appends no enforcement-log entry at all (the log of the fresh store
stays empty), contradicting the claim that every call appends exactly one
entry regardless of outcome. -/
theorem unregistered_call_logs_nothing :
    ((GovernanceTools.check_authorization (GovernanceTools.govInit 0)
        "ghost_agent" "do something" 1).2).enforcement_log.length = 0 := by
  rfl

/-- C3 amended: when the agent is registered, one `check_authorization`
call appends exactly one entry — carrying the call's agent id, action text,
the outcome's authorized boolean, and a reason string — through the bounded
`_log_enforcement` push, and leaves the rest of the store unchanged; when
the agent is not registered the call leaves the whole store (including the
log) unchanged. -/
theorem authorization_logging_contract (st : GovernanceTools.GovState)
    (agent_id action : String) (now : ℚ) :
    (GovernanceTools.lookupA agent_id st.agent_purposes = none →
      (GovernanceTools.check_authorization st agent_id action now).2 = st)
  ∧ (GovernanceTools.lookupA agent_id st.agent_purposes ≠ none →
      ∃ reason,
        (GovernanceTools.check_authorization st agent_id action now).2.enforcement_log
          = GovernanceTools.log_enforcement st.enforcement_log
              ⟨now, agent_id, action,
               (GovernanceTools.check_authorization st agent_id action now).1.authorized,
               reason⟩
      ∧ (GovernanceTools.check_authorization st agent_id action now).2.policies
          = st.policies
      ∧ (GovernanceTools.check_authorization st agent_id action now).2.agent_purposes
          = st.agent_purposes
      ∧ (GovernanceTools.check_authorization st agent_id action now).2.max_response_length
          = st.max_response_length) := by
  cases hl : GovernanceTools.lookupA agent_id st.agent_purposes with
  | none =>
    refine ⟨fun _ => ?_, fun hne => absurd rfl hne⟩
    simp only [GovernanceTools.check_authorization, hl]
  | some purpose =>
    refine ⟨fun hno => by simp at hno, fun _ => ?_⟩
    cases hf : purpose.prohibited_use_cases.find?
        (fun p => GovernanceTools.containsLower action p) with
    | some prohibited =>
      refine ⟨"Cas d'usage interdit: " ++ prohibited, ?_, ?_, ?_, ?_⟩ <;>
        simp only [GovernanceTools.check_authorization, hl, hf]
    | none =>
      by_cases hlen : action.length > st.max_response_length
      · refine ⟨"Dépassement de la limite de longueur", ?_, ?_, ?_, ?_⟩ <;>
          simp only [GovernanceTools.check_authorization, hl, hf, if_pos hlen]
      · cases hp : st.policies.find?
            (fun pol => GovernanceTools.check_policy_violation pol action) with
        | some pol =>
          refine ⟨"Violation de politique: " ++ pol.name, ?_, ?_, ?_, ?_⟩ <;>
            simp only [GovernanceTools.check_authorization, hl, hf, if_neg hlen, hp]
        | none =>
          refine ⟨"Action autorisée", ?_, ?_, ?_, ?_⟩ <;>
            simp only [GovernanceTools.check_authorization, hl, hf, if_neg hlen, hp]

/-- Witness for C3 at concrete inputs: an unregistered call on the fresh
store leaves it unchanged, and a registered call appends its one entry. -/
theorem authorization_logging_contract_witness :
    (GovernanceTools.check_authorization (GovernanceTools.govInit 0)
        "ghost_agent" "do something" 1).2 = GovernanceTools.govInit 0
  ∧ ∃ reason,
      (GovernanceTools.check_authorization
          (GovernanceTools.define_agent_purpose (GovernanceTools.govInit 0)
            "agent_1" "Agent" "testing" ["testing"] [] [] [] 0)
          "agent_1" "analyse the logs" 1).2.enforcement_log
        = GovernanceTools.log_enforcement
            (GovernanceTools.define_agent_purpose (GovernanceTools.govInit 0)
              "agent_1" "Agent" "testing" ["testing"] [] [] [] 0).enforcement_log
            ⟨1, "agent_1", "analyse the logs",
             (GovernanceTools.check_authorization
                (GovernanceTools.define_agent_purpose (GovernanceTools.govInit 0)
                  "agent_1" "Agent" "testing" ["testing"] [] [] [] 0)
                "agent_1" "analyse the logs" 1).1.authorized,
             reason⟩ := by
  constructor
  · exact (authorization_logging_contract (GovernanceTools.govInit 0)
      "ghost_agent" "do something" 1).1 rfl
  · obtain ⟨r, hr, -, -, -⟩ := (authorization_logging_contract
      (GovernanceTools.define_agent_purpose (GovernanceTools.govInit 0)
        "agent_1" "Agent" "testing" ["testing"] [] [] [] 0)
      "agent_1" "analyse the logs" 1).2
      (by simp only [GovernanceTools.define_agent_purpose]
          rw [lookupA_upsertA]
          simp)
    exact ⟨r, hr⟩

/-- C6: an authorization check for an agent with no prior registration is
denied with the unregistered-agent reason, and after registering a purpose
whose prohibited use cases are exactly ["admin access"], checking the
action "request admin access to db" is denied with a reason citing that
prohibited use case. -/
theorem authorization_denial_scenarios (st st' : GovernanceTools.GovState)
    (agent_id aid name purpose : String) (auth caps lims : List String)
    (action : String) (now now2 treg : ℚ)
    (h : GovernanceTools.lookupA agent_id st.agent_purposes = none) :
    (GovernanceTools.check_authorization st agent_id action now).1
      = ⟨false, "Agent non enregistré",
         "Enregistrer l'agent avec define_agent_purpose"⟩
  ∧ (GovernanceTools.check_authorization
        (GovernanceTools.define_agent_purpose st' aid name purpose auth
          ["admin access"] caps lims treg)
        aid "request admin access to db" now2).1
      = ⟨false, "Cas d'usage interdit: admin access",
         "Utiliser un cas d'usage autorisé"⟩ := by
  constructor
  · simp only [GovernanceTools.check_authorization, h]
  · have hpur : (GovernanceTools.define_agent_purpose st' aid name purpose auth
        ["admin access"] caps lims treg).agent_purposes
      = GovernanceTools.upsertA aid
          ⟨aid, name, purpose, auth, ["admin access"], caps, lims,
           st'.max_response_length, treg⟩ st'.agent_purposes := rfl
    have hlk := lookupA_upsertA aid
      (⟨aid, name, purpose, auth, ["admin access"], caps, lims,
        st'.max_response_length, treg⟩ : GovernanceTools.AgentPurpose) st'.agent_purposes
    simp only [GovernanceTools.check_authorization, hpur, hlk]
    exact rfl

/-- Witness for C6 at a concrete store and agent. -/
theorem authorization_denial_scenarios_witness :
    (GovernanceTools.check_authorization (GovernanceTools.govInit 0)
        "ghost_agent" "do something" 1).1
      = ⟨false, "Agent non enregistré",
         "Enregistrer l'agent avec define_agent_purpose"⟩
  ∧ (GovernanceTools.check_authorization
        (GovernanceTools.define_agent_purpose (GovernanceTools.govInit 0)
          "agent_1" "Agent" "support" ["support"] ["admin access"] [] [] 0)
        "agent_1" "request admin access to db" 1).1
      = ⟨false, "Cas d'usage interdit: admin access",
         "Utiliser un cas d'usage autorisé"⟩ :=
  authorization_denial_scenarios (GovernanceTools.govInit 0) (GovernanceTools.govInit 0)
    "ghost_agent" "agent_1" "Agent" "support" ["support"] [] []
    "do something" 1 1 0 rfl

/- ## C7: infinite-loop detection. -/

/-- The bounded new history built by `detect_infinite_loop`. -/
def newLoopHistory (history : List PerformanceTools.CallRecord)
    (fn args : String) (now : ℚ) : List PerformanceTools.CallRecord :=
  let h := history ++ [⟨fn, args, now⟩]
  if h.length > 100 then takeLast 100 h else h

theorem detect_infinite_loop_snd (history : List PerformanceTools.CallRecord)
    (fn args : String) (now : ℚ) :
    (PerformanceTools.detect_infinite_loop history fn args now).2
      = newLoopHistory history fn args now := rfl

theorem detect_infinite_loop_fst (history : List PerformanceTools.CallRecord)
    (fn args : String) (now : ℚ) :
    (PerformanceTools.detect_infinite_loop history fn args now).1
      = (if (takeLast 10 (newLoopHistory history fn args now)).length ≥ 5
            ∧ PerformanceTools.hasRepeatedKey
                (takeLast 10 (newLoopHistory history fn args now)) = true
         then true
         else if (newLoopHistory history fn args now).length > 1
            ∧ now - ((newLoopHistory history fn args now).headD ⟨"", "", 0⟩).timestamp > 30
         then true
         else false) := rfl

/-- C7 counterexample: four quick calls with the same function and
arguments leave a key occurring 4 > 3 times among the last 10 records of
the history, yet the fourth call returns false — the pattern check only
runs once the last-10 window holds at least 5 records. -/
theorem four_repeats_not_flagged :
    (PerformanceTools.detect_infinite_loop
        [⟨"f", "a", 0⟩, ⟨"f", "a", 0⟩, ⟨"f", "a", 0⟩] "f" "a" 0).1 = false
  ∧ 3 < PerformanceTools.countKey
        (takeLast 10 (PerformanceTools.detect_infinite_loop
          [⟨"f", "a", 0⟩, ⟨"f", "a", 0⟩, ⟨"f", "a", 0⟩] "f" "a" 0).2)
        ⟨"f", "a", 0⟩ := by
  constructor
  · rw [detect_infinite_loop_fst]
    rw [if_neg (by decide)]
    have ht : ((newLoopHistory [⟨"f", "a", 0⟩, ⟨"f", "a", 0⟩, ⟨"f", "a", 0⟩]
        "f" "a" 0).headD ⟨"", "", 0⟩).timestamp = (0 : ℚ) := rfl
    rw [if_neg ?hB]
    case hB =>
      intro hB
      rw [ht] at hB
      exact absurd hB.2 (by norm_num)
  · rw [detect_infinite_loop_snd]
    decide

/-- C7 amended: `detect_infinite_loop` appends a call record to the history
bounded at 100 entries (oldest evicted); it returns true whenever the
last-10 window of the new history holds at least 5 records and some
(function, args) key occurs more than 3 times in it, and it returns true
whenever the elapsed time from the oldest record of the new history to the
current call exceeds the 30-second threshold (given at least 2 records). -/
theorem loop_detection_contract (history : List PerformanceTools.CallRecord)
    (fn args : String) (now : ℚ) :
    ((PerformanceTools.detect_infinite_loop history fn args now).2
      = (if (history ++ [(⟨fn, args, now⟩ : PerformanceTools.CallRecord)]).length > 100
         then takeLast 100 (history ++ [(⟨fn, args, now⟩ : PerformanceTools.CallRecord)])
         else history ++ [(⟨fn, args, now⟩ : PerformanceTools.CallRecord)]))
  ∧ (5 ≤ (takeLast 10 (PerformanceTools.detect_infinite_loop history fn args now).2).length →
      PerformanceTools.hasRepeatedKey
        (takeLast 10 (PerformanceTools.detect_infinite_loop history fn args now).2) = true →
      (PerformanceTools.detect_infinite_loop history fn args now).1 = true)
  ∧ (1 < (PerformanceTools.detect_infinite_loop history fn args now).2.length →
      30 < now - ((PerformanceTools.detect_infinite_loop history fn args now).2.headD
        ⟨"", "", 0⟩).timestamp →
      (PerformanceTools.detect_infinite_loop history fn args now).1 = true) := by
  refine ⟨detect_infinite_loop_snd history fn args now, ?_, ?_⟩
  · intro h5 hrep
    rw [detect_infinite_loop_snd] at h5 hrep
    rw [detect_infinite_loop_fst, if_pos ⟨h5, hrep⟩]
  · intro hlen helapsed
    rw [detect_infinite_loop_snd] at hlen helapsed
    rw [detect_infinite_loop_fst]
    by_cases hA : (takeLast 10 (newLoopHistory history fn args now)).length ≥ 5
        ∧ PerformanceTools.hasRepeatedKey
            (takeLast 10 (newLoopHistory history fn args now)) = true
    · rw [if_pos hA]
    · rw [if_neg hA, if_pos ⟨hlen, helapsed⟩]

/-- Witness for C7: a fifth identical call 40 seconds after four calls at
time zero satisfies the repetition hypotheses and the timeout hypotheses,
and the contract flags it. -/
theorem loop_detection_contract_witness :
    (5 ≤ (takeLast 10 (PerformanceTools.detect_infinite_loop
        [⟨"f", "a", 0⟩, ⟨"f", "a", 0⟩, ⟨"f", "a", 0⟩, ⟨"f", "a", 0⟩] "f" "a" 40).2).length)
  ∧ PerformanceTools.hasRepeatedKey
      (takeLast 10 (PerformanceTools.detect_infinite_loop
        [⟨"f", "a", 0⟩, ⟨"f", "a", 0⟩, ⟨"f", "a", 0⟩, ⟨"f", "a", 0⟩] "f" "a" 40).2) = true
  ∧ 1 < (PerformanceTools.detect_infinite_loop
        [⟨"f", "a", 0⟩, ⟨"f", "a", 0⟩, ⟨"f", "a", 0⟩, ⟨"f", "a", 0⟩] "f" "a" 40).2.length
  ∧ 30 < (40 : ℚ) - ((PerformanceTools.detect_infinite_loop
        [⟨"f", "a", 0⟩, ⟨"f", "a", 0⟩, ⟨"f", "a", 0⟩, ⟨"f", "a", 0⟩] "f" "a" 40).2.headD
          ⟨"", "", 0⟩).timestamp
  ∧ (PerformanceTools.detect_infinite_loop
      [⟨"f", "a", 0⟩, ⟨"f", "a", 0⟩, ⟨"f", "a", 0⟩, ⟨"f", "a", 0⟩] "f" "a" 40).1 = true := by
  refine ⟨by decide, by decide, by decide, ?_, ?_⟩
  · rw [detect_infinite_loop_snd]
    norm_num [newLoopHistory]
  · exact (loop_detection_contract
      [⟨"f", "a", 0⟩, ⟨"f", "a", 0⟩, ⟨"f", "a", 0⟩, ⟨"f", "a", 0⟩] "f" "a" 40).2.1
      (by decide) (by decide)

/- ## C10: end_task never reports interventions. -/

/-- Every task entry of the tracker has a zero interventions field. -/
def allInterZero (l : List (String × PerformanceTools.TaskEntry)) : Prop :=
  ∀ p ∈ l, p.2.interventions = 0

theorem allInterZero_upsertA (l : List (String × PerformanceTools.TaskEntry))
    (k : String) (e : PerformanceTools.TaskEntry)
    (hl : allInterZero l) (he : e.interventions = 0) :
    allInterZero (GovernanceTools.upsertA k e l) := by
  induction l with
  | nil =>
    intro p hp
    simp only [GovernanceTools.upsertA, List.mem_singleton] at hp
    subst hp
    exact he
  | cons q qs ih =>
    intro p hp
    simp only [GovernanceTools.upsertA] at hp
    split at hp
    · rcases List.mem_cons.mp hp with h | h
      · subst h; exact he
      · exact hl p (List.mem_cons_of_mem _ h)
    · rcases List.mem_cons.mp hp with h | h
      · subst h; exact hl p (List.mem_cons_self _ _)
      · exact ih (fun r hr => hl r (List.mem_cons_of_mem _ hr)) p h

theorem allInterZero_updateA (l : List (String × PerformanceTools.TaskEntry))
    (k : String) (f : PerformanceTools.TaskEntry → PerformanceTools.TaskEntry)
    (hf : ∀ e, (f e).interventions = e.interventions)
    (hl : allInterZero l) :
    allInterZero (PerformanceTools.updateA k f l) := by
  induction l with
  | nil => intro p hp; simp [PerformanceTools.updateA] at hp
  | cons q qs ih =>
    intro p hp
    simp only [PerformanceTools.updateA] at hp
    split at hp
    · rcases List.mem_cons.mp hp with h | h
      · subst h
        have hq := hl q (List.mem_cons_self _ _)
        simpa [hf] using hq
      · exact hl p (List.mem_cons_of_mem _ h)
    · rcases List.mem_cons.mp hp with h | h
      · subst h; exact hl p (List.mem_cons_self _ _)
      · exact ih (fun r hr => hl r (List.mem_cons_of_mem _ hr)) p h

theorem runTrack_allInterZero (ops : List PerformanceTools.TrackOp) :
    ∀ st : PerformanceTools.PerfState, allInterZero st.task_steps →
      allInterZero (PerformanceTools.runTrack st ops).task_steps := by
  induction ops with
  | nil => intro st h; exact h
  | cons o ops ih =>
    intro st h
    have hstep : allInterZero (PerformanceTools.stepTrack st o).task_steps := by
      cases o with
      | start tid d now =>
        exact allInterZero_upsertA st.task_steps tid _ h rfl
      | step d ty now =>
        simp only [PerformanceTools.stepTrack, PerformanceTools.add_step]
        cases st.current_task_id with
        | none => exact h
        | some tid => exact allInterZero_updateA st.task_steps tid _ (fun e => rfl) h
      | intervention r now => exact h
    exact ih (PerformanceTools.stepTrack st o) hstep

theorem lookupA_mem {α : Type} (k : String) (l : List (String × α)) (v : α)
    (h : GovernanceTools.lookupA k l = some v) : ∃ p ∈ l, p.2 = v := by
  induction l with
  | nil => simp [GovernanceTools.lookupA] at h
  | cons q qs ih =>
    simp only [GovernanceTools.lookupA] at h
    split at h
    · refine ⟨q, List.mem_cons_self _ _, ?_⟩
      injection h
    · obtain ⟨p, hp, hv⟩ := ih h
      exact ⟨p, List.mem_cons_of_mem _ hp, hv⟩

/-- The metrics computed by `end_task` when a current task exists. -/
theorem end_task_metrics (st : PerformanceTools.PerfState) (success : Bool) (now : ℚ)
    (tid : String) (task : PerformanceTools.TaskEntry)
    (hcur : st.current_task_id = some tid)
    (hlk : GovernanceTools.lookupA tid st.task_steps = some task) :
    (PerformanceTools.end_task st success now).1
      = some ⟨tid, task.steps.length, now - task.start_time, success,
          PerformanceTools.get_total_cost st.cost_tracking, task.interventions,
          if now - task.start_time > 0
          then (task.steps.length : ℚ) / ((now - task.start_time) / 60) else 0⟩ := by
  unfold PerformanceTools.end_task
  rw [hcur]
  dsimp only
  rw [hlk]

/-- The result of `end_task` is `none` unless a current task with an entry
exists. -/
theorem end_task_none (st : PerformanceTools.PerfState) (success : Bool) (now : ℚ)
    (h : match st.current_task_id with
         | none => True
         | some tid => GovernanceTools.lookupA tid st.task_steps = none) :
    (PerformanceTools.end_task st success now).1 = none := by
  unfold PerformanceTools.end_task
  cases hcur : st.current_task_id with
  | none => rfl
  | some tid =>
    rw [hcur] at h
    dsimp only
    rw [h]

/-- C10: for every sequence of `start_task`, `add_step` and
`track_human_intervention` calls on a fresh tracker, whenever `end_task`
returns a metrics dictionary it reports 0 interventions:
`track_human_intervention` only bumps the tracker-global counter and never
the per-task field that `end_task` copies out. -/
theorem end_task_interventions_zero (ops : List PerformanceTools.TrackOp)
    (success : Bool) (now : ℚ) (m : PerformanceTools.TaskMetrics)
    (h : (PerformanceTools.end_task (PerformanceTools.runTrack PerformanceTools.perfInit ops)
        success now).1 = some m) :
    m.interventions = 0 := by
  have hz : allInterZero (PerformanceTools.runTrack PerformanceTools.perfInit ops).task_steps :=
    runTrack_allInterZero ops PerformanceTools.perfInit
      (by intro p hp; simp [PerformanceTools.perfInit] at hp)
  cases hcur : (PerformanceTools.runTrack PerformanceTools.perfInit ops).current_task_id with
  | none =>
    rw [end_task_none _ success now (by rw [hcur]; trivial)] at h
    exact absurd h (by simp)
  | some tid =>
    cases hlk : GovernanceTools.lookupA tid
        (PerformanceTools.runTrack PerformanceTools.perfInit ops).task_steps with
    | none =>
      rw [end_task_none _ success now (by rw [hcur]; exact hlk)] at h
      exact absurd h (by simp)
    | some task =>
      rw [end_task_metrics _ success now tid task hcur hlk] at h
      obtain rfl := (Option.some.inj h).symm
      show task.interventions = 0
      obtain ⟨p, hp, hv⟩ := lookupA_mem tid _ task hlk
      exact hv ▸ hz p hp

/-- Witness for C10: a run with one intervention between start and step
still reports 0 interventions from `end_task`. -/
theorem end_task_interventions_zero_witness :
    ((PerformanceTools.end_task
        (PerformanceTools.runTrack PerformanceTools.perfInit
          [.start "t" "demo" 0, .intervention "manual check" 0, .step "s1" "general" 0])
        true 0).1.getD ⟨"", 0, 0, false, 0, 1, 0⟩).interventions = 0 := by
  have hme := end_task_metrics
    (PerformanceTools.runTrack PerformanceTools.perfInit
      [.start "t" "demo" 0, .intervention "manual check" 0, .step "s1" "general" 0])
    true 0 "t" ⟨"demo", 0, [⟨1, "s1", "general", 0⟩], 0, 0⟩ rfl rfl
  rw [hme]
  exact end_task_interventions_zero
    [.start "t" "demo" 0, .intervention "manual check" 0, .step "s1" "general" 0]
    true 0 _ hme

/- ## C2 and C9: masking scenarios. -/

/-- The C2 scenario input. -/
def inputC2 : List Char := "Contact me at jane.doe@example.com or 555-123-4567".data

/-- C2 counterexample: on the scenario input the masked text does not
contain `ja***@example.com` — the case-insensitive name pattern also
matches "Contact me", "at jane" and "com or", and the back-to-front
rewrites overwrite one character of the email mask. -/
theorem mask_scenario_email_mask_missing :
    ¬(containsSeq (SecurityTools.mask_text inputC2).1 "ja***@example.com".data = true
      ∧ containsSeq (SecurityTools.mask_text inputC2).1 "***-***-4567".data = true
      ∧ containsSeq (SecurityTools.mask_text inputC2).1 "jane.doe@example.com".data = false
      ∧ containsSeq (SecurityTools.mask_text inputC2).1 "555-123-4567".data = false) := by
  intro h
  have h1 := h.1
  rw [show containsSeq (SecurityTools.mask_text inputC2).1 "ja***@example.com".data
      = false from rfl] at h1
  exact Bool.noConfusion h1

/-- C2 amended: the masked text of the scenario input contains
`***-***-4567` and contains neither the raw email nor the raw phone
substring; the email mask, however, is corrupted by the overlapping
case-insensitive name-pattern rewrites and appears as `j****@example.com`
instead of `ja***@example.com`.  The full masked output is
`C*** m*** a*** j****@example.com* o*** ***-***-4567`. -/
theorem mask_scenario_actual_output :
    (SecurityTools.mask_text inputC2).1
      = "C*** m*** a*** j****@example.com* o*** ***-***-4567".data
  ∧ containsSeq (SecurityTools.mask_text inputC2).1 "***-***-4567".data = true
  ∧ containsSeq (SecurityTools.mask_text inputC2).1 "j****@example.com".data = true
  ∧ containsSeq (SecurityTools.mask_text inputC2).1 "jane.doe@example.com".data = false
  ∧ containsSeq (SecurityTools.mask_text inputC2).1 "555-123-4567".data = false :=
  ⟨rfl, rfl, rfl, rfl, rfl⟩

/-- The C9 failing input: ten digits that match the phone pattern, followed
by nine more digits. -/
def inputC9 : List Char := "5555555555123456789".data

/-- C9: masking is not idempotent for the phone category.  The first run
detects exactly one phone match (the first ten digits) and masks it, but
the mask's trailing four digits recombine with the following raw digits,
and a second detection run on the masked output finds a fresh phone
finding `5555123456` at offset 8. -/
theorem masked_phone_redetected :
    ((SecurityTools.detect_pii inputC9).map (fun d => (d.type, d.value, d.position))
      = [("phone", "5555555555".data, 0)])
  ∧ (SecurityTools.mask_text inputC9).1 = "***-***-5555123456789".data
  ∧ ((SecurityTools.detect_pii (SecurityTools.mask_text inputC9).1).map
        (fun d => (d.type, d.value, d.position))
      = [("phone", "5555123456".data, 8)]) :=
  ⟨rfl, rfl, rfl⟩

/- ## C8: drift detection. -/

namespace QualityTools

/-- The relative change of the mean record length between the most recent
10 records and the preceding window (the source's `length_change`). -/
def lengthChange (h : List HistoryRecord) : ℚ :=
  let recent := takeLast 10 h
  let older := if h.length ≥ 20 then (takeLast 20 h).take 10 else h.take (h.length - 10)
  let rl := listMean (recent.map (fun r => (r.length : ℚ)))
  let ol := listMean (older.map (fun r => (r.length : ℚ)))
  if ol > 0 then |rl - ol| / ol else 0

/-- The relative change of the mean record word count between the most
recent 10 records and the preceding window (the source's `word_change`). -/
def wordChange (h : List HistoryRecord) : ℚ :=
  let recent := takeLast 10 h
  let older := if h.length ≥ 20 then (takeLast 20 h).take 10 else h.take (h.length - 10)
  let rw := listMean (recent.map (fun r => (r.word_count : ℚ)))
  let ow := listMean (older.map (fun r => (r.word_count : ℚ)))
  if ow > 0 then |rw - ow| / ow else 0

end QualityTools

theorem calculate_drift_fields (h : List QualityTools.HistoryRecord)
    (hge : 10 ≤ h.length) :
    (QualityTools.calculate_drift h).drift_detected
        = decide (QualityTools.lengthChange h > 3/10 ∨ QualityTools.wordChange h > 3/10)
  ∧ (QualityTools.calculate_drift h).confidence
        = min (9/10) (QualityTools.lengthChange h + QualityTools.wordChange h) := by
  unfold QualityTools.calculate_drift QualityTools.lengthChange QualityTools.wordChange
  rw [if_neg (by omega : ¬ h.length < 10)]
  exact ⟨rfl, rfl⟩

theorem detect_input_drift_issues (st : QualityTools.DriftState) (text : List Char)
    (now : ℚ) :
    (QualityTools.detect_input_drift st text now).1.map (fun i => (i.type, i.confidence))
      = (if 10 ≤ (QualityTools.pushHistory st.input_history
              (QualityTools.mkRecord text now)).length
            ∧ (QualityTools.lengthChange (QualityTools.pushHistory st.input_history
                  (QualityTools.mkRecord text now)) > 3/10
               ∨ QualityTools.wordChange (QualityTools.pushHistory st.input_history
                  (QualityTools.mkRecord text now)) > 3/10)
         then [("input_drift",
                min (9/10) (QualityTools.lengthChange (QualityTools.pushHistory
                    st.input_history (QualityTools.mkRecord text now))
                  + QualityTools.wordChange (QualityTools.pushHistory st.input_history
                    (QualityTools.mkRecord text now))))]
         else []) := by
  by_cases h10 : 10 ≤ (QualityTools.pushHistory st.input_history
      (QualityTools.mkRecord text now)).length
  · obtain ⟨hd, hc⟩ := calculate_drift_fields _ h10
    by_cases hcond : QualityTools.lengthChange (QualityTools.pushHistory st.input_history
          (QualityTools.mkRecord text now)) > 3/10
        ∨ QualityTools.wordChange (QualityTools.pushHistory st.input_history
          (QualityTools.mkRecord text now)) > 3/10
    · rw [if_pos ⟨h10, hcond⟩]
      simp only [QualityTools.detect_input_drift]
      rw [if_pos h10, hd, hc]
      simp only [decide_eq_true_eq]
      rw [if_pos hcond]
      rfl
    · rw [if_neg (fun hco => hcond hco.2)]
      simp only [QualityTools.detect_input_drift]
      rw [if_pos h10, hd]
      simp only [decide_eq_true_eq]
      rw [if_neg hcond]
      rfl
  · rw [if_neg (fun hco => h10 hco.1)]
    simp only [QualityTools.detect_input_drift]
    rw [if_neg h10]
    rfl

theorem detect_output_drift_issues (st : QualityTools.DriftState) (text : List Char)
    (now : ℚ) :
    (QualityTools.detect_output_drift st text now).1.map (fun i => (i.type, i.confidence))
      = (if 10 ≤ (QualityTools.pushHistory st.output_history
              (QualityTools.mkRecord text now)).length
            ∧ (QualityTools.lengthChange (QualityTools.pushHistory st.output_history
                  (QualityTools.mkRecord text now)) > 3/10
               ∨ QualityTools.wordChange (QualityTools.pushHistory st.output_history
                  (QualityTools.mkRecord text now)) > 3/10)
         then [("output_drift",
                min (9/10) (QualityTools.lengthChange (QualityTools.pushHistory
                    st.output_history (QualityTools.mkRecord text now))
                  + QualityTools.wordChange (QualityTools.pushHistory st.output_history
                    (QualityTools.mkRecord text now))))]
         else []) := by
  by_cases h10 : 10 ≤ (QualityTools.pushHistory st.output_history
      (QualityTools.mkRecord text now)).length
  · obtain ⟨hd, hc⟩ := calculate_drift_fields _ h10
    by_cases hcond : QualityTools.lengthChange (QualityTools.pushHistory st.output_history
          (QualityTools.mkRecord text now)) > 3/10
        ∨ QualityTools.wordChange (QualityTools.pushHistory st.output_history
          (QualityTools.mkRecord text now)) > 3/10
    · rw [if_pos ⟨h10, hcond⟩]
      simp only [QualityTools.detect_output_drift]
      rw [if_pos h10, hd, hc]
      simp only [decide_eq_true_eq]
      rw [if_pos hcond]
      rfl
    · rw [if_neg (fun hco => hcond hco.2)]
      simp only [QualityTools.detect_output_drift]
      rw [if_pos h10, hd]
      simp only [decide_eq_true_eq]
      rw [if_neg hcond]
      rfl
  · rw [if_neg (fun hco => h10 hco.1)]
    simp only [QualityTools.detect_output_drift]
    rw [if_neg h10]
    rfl

/-- C8: for each stream independently, a drift observation appends the new
record to that stream's bounded history and returns a drift issue exactly
when the history now holds at least 10 records and either the relative
change of the mean length or of the mean word count — most recent 10
records against the preceding 10 (or all available older records when
fewer than 20 total) — exceeds 0.30; the reported confidence is
`min(0.9, length_change + word_change)`; the other stream's history is
untouched. -/
theorem drift_detection_contract (st : QualityTools.DriftState) (text : List Char)
    (now : ℚ) :
    ((QualityTools.detect_input_drift st text now).1.map (fun i => (i.type, i.confidence))
      = (if 10 ≤ (QualityTools.pushHistory st.input_history
              (QualityTools.mkRecord text now)).length
            ∧ (QualityTools.lengthChange (QualityTools.pushHistory st.input_history
                  (QualityTools.mkRecord text now)) > 3/10
               ∨ QualityTools.wordChange (QualityTools.pushHistory st.input_history
                  (QualityTools.mkRecord text now)) > 3/10)
         then [("input_drift",
                min (9/10) (QualityTools.lengthChange (QualityTools.pushHistory
                    st.input_history (QualityTools.mkRecord text now))
                  + QualityTools.wordChange (QualityTools.pushHistory st.input_history
                    (QualityTools.mkRecord text now))))]
         else []))
  ∧ (QualityTools.detect_input_drift st text now).2.input_history
      = QualityTools.pushHistory st.input_history (QualityTools.mkRecord text now)
  ∧ (QualityTools.detect_input_drift st text now).2.output_history = st.output_history
  ∧ ((QualityTools.detect_output_drift st text now).1.map (fun i => (i.type, i.confidence))
      = (if 10 ≤ (QualityTools.pushHistory st.output_history
              (QualityTools.mkRecord text now)).length
            ∧ (QualityTools.lengthChange (QualityTools.pushHistory st.output_history
                  (QualityTools.mkRecord text now)) > 3/10
               ∨ QualityTools.wordChange (QualityTools.pushHistory st.output_history
                  (QualityTools.mkRecord text now)) > 3/10)
         then [("output_drift",
                min (9/10) (QualityTools.lengthChange (QualityTools.pushHistory
                    st.output_history (QualityTools.mkRecord text now))
                  + QualityTools.wordChange (QualityTools.pushHistory st.output_history
                    (QualityTools.mkRecord text now))))]
         else []))
  ∧ (QualityTools.detect_output_drift st text now).2.output_history
      = QualityTools.pushHistory st.output_history (QualityTools.mkRecord text now)
  ∧ (QualityTools.detect_output_drift st text now).2.input_history = st.input_history :=
  ⟨detect_input_drift_issues st text now, rfl, rfl,
   detect_output_drift_issues st text now, rfl, rfl⟩
